import Mathlib

/-!
Verification of the financial core of the GenAI Wealth Advisor app
(src/Gen_AI.py): the portfolio-allocation table, the monthly-investment
annuity formulas, and the CAGR / average-growth estimator.

Python's `round` uses banker's rounding (round half to even); `round(x)`
returns an integer and `round(x, 2)` rounds to two decimal places.  Python
float division by zero raises ZeroDivisionError, which we embed as the
`none` branch of an `Option` result (the straight-line arithmetic in the
source has no guard).
-/

/-- Python's built-in `round(x)` (round half to even), on rationals. -/
def pyRound (q : ℚ) : ℤ :=
  if q - ⌊q⌋ < 1/2 then ⌊q⌋
  else if 1/2 < q - ⌊q⌋ then ⌊q⌋ + 1
  else if ⌊q⌋ % 2 = 0 then ⌊q⌋ else ⌊q⌋ + 1

/-- Python's `round(x, 2)` (two decimal places, half to even), on rationals. -/
def pyRound2 (q : ℚ) : ℚ :=
  (pyRound (q * 100) : ℚ) / 100

/-- Python's built-in `round(x)` (round half to even), on reals. -/
noncomputable def pyRoundR (x : ℝ) : ℤ :=
  if x - ⌊x⌋ < 1/2 then ⌊x⌋
  else if 1/2 < x - ⌊x⌋ then ⌊x⌋ + 1
  else if ⌊x⌋ % 2 = 0 then ⌊x⌋ else ⌊x⌋ + 1

/-- Python's `round(x, 2)` (two decimal places, half to even), on reals. -/
noncomputable def pyRound2R (x : ℝ) : ℝ :=
  (pyRoundR (x * 100) : ℝ) / 100

/-- The three-bucket allocation returned by `get_portfolio_allocation`. -/
structure Allocation where
  equity : ℕ
  debt : ℕ
  gold : ℕ
deriving DecidableEq, Repr

/-- Embeds `get_portfolio_allocation(risk)` from src/Gen_AI.py lines 27-33:
an if/elif/else chain on the risk string whose else-branch returns the
High allocation. -/
def get_portfolio_allocation (risk : String) : Allocation :=
  if risk = "Low" then ⟨30, 60, 10⟩
  else if risk = "Medium" then ⟨50, 40, 10⟩
  else ⟨70, 20, 10⟩

/-- Sum of the three percentages of an allocation. -/
def allocTotal (a : Allocation) : ℕ :=
  a.equity + a.debt + a.gold

/-- Embeds the goal-mode branch of the monthly investment plan
(src/Gen_AI.py lines 127-137):
`monthly = target * monthly_rate / ((1 + monthly_rate) ** months - 1)`
followed by `monthly = round(monthly)`.  A zero denominator is Python's
ZeroDivisionError, embedded as `none`; the source has no zero-rate guard. -/
def solveMonthlyFromTarget (target rate : ℚ) (years : ℕ) : Option ℤ :=
  let months := years * 12
  let monthly_rate := rate / 100 / 12
  let denom := (1 + monthly_rate) ^ months - 1
  if denom = 0 then none
  else some (pyRound (target * monthly_rate / denom))

/-- Embeds the monthly-mode branch of the monthly investment plan
(src/Gen_AI.py lines 139-143):
`future_value = monthly * (((1 + monthly_rate) ** months - 1) / monthly_rate)`
followed by `future_value = round(future_value)`.  Division by a zero
periodic rate is Python's ZeroDivisionError, embedded as `none`. -/
def solveFutureFromMonthly (monthly rate : ℚ) (years : ℕ) : Option ℤ :=
  let months := years * 12
  let monthly_rate := rate / 100 / 12
  if monthly_rate = 0 then none
  else some (pyRound (monthly * (((1 + monthly_rate) ^ months - 1) / monthly_rate)))

/-- Embeds the average-CAGR computation (src/Gen_AI.py lines 156-159):
filter out `None` estimates; if any remain, report
`round(sum(valid) / len(valid), 2)`, otherwise nothing. -/
def averageGrowth (estimates : List (Option ℚ)) : Option ℚ :=
  let valid := estimates.filterMap id
  if valid.isEmpty then none
  else some (pyRound2 ((valid.sum) / (valid.length : ℚ)))

/-- Result of `fetch_cagr`: `absent` embeds a `None` return, `err` embeds an
uncaught Python exception (ZeroDivisionError on a zero start price or a
zero year count). -/
inductive FetchResult where
  | absent : FetchResult
  | err : FetchResult
  | val : ℝ → FetchResult

/-- Embeds `fetch_cagr(ticker, years)` from src/Gen_AI.py lines 51-60,
abstracting the downloaded frame as its Adj Close column: `none` when the
column is missing, the price list otherwise (empty when the frame is empty).
`start_price`/`end_price` are `iloc[0]`/`iloc[-1]`;
the result is `round((end_price / start_price) ** (1 / years) - 1) * 100, 2)`
with real-exponent power.  A zero start price is a ZeroDivisionError. -/
noncomputable def fetch_cagr (adjClose : Option (List ℝ)) (years : ℕ) : FetchResult :=
  match adjClose with
  | none => FetchResult.absent
  | some [] => FetchResult.absent
  | some (p :: ps) =>
    let start_price := p
    let end_price := (p :: ps).getLast (List.cons_ne_nil p ps)
    if start_price = 0 then FetchResult.err
    else if years = 0 then FetchResult.err
    else FetchResult.val (pyRound2R (((end_price / start_price) ^ ((1 : ℝ) / years) - 1) * 100))

/-! ### Helper lemmas -/

/-- Rounding half to even moves a rational by at most one half. -/
theorem abs_pyRound_sub (q : ℚ) : |(pyRound q : ℚ) - q| ≤ 1/2 := by
  have h0 : (⌊q⌋ : ℚ) ≤ q := Int.floor_le q
  have h1 : q < ⌊q⌋ + 1 := Int.lt_floor_add_one q
  unfold pyRound
  split_ifs with ha hb hc <;> rw [abs_le] <;> constructor <;> push_cast <;> linarith

/-- With a positive rate and at least one year, the annuity denominator
`(1 + r) ^ n - 1` is positive. -/
theorem annuity_denom_pos {R : ℚ} {Y : ℕ} (hR : 0 < R) (hY : 1 ≤ Y) :
    0 < (1 + R / 100 / 12) ^ (Y * 12) - 1 := by
  have hr : 0 < R / 100 / 12 := by positivity
  have h1 : 1 < 1 + R / 100 / 12 := by linarith
  have h2 : 1 < (1 + R / 100 / 12) ^ (Y * 12) :=
    one_lt_pow₀ h1 (show Y * 12 ≠ 0 by omega)
  linarith

/-- Closed form of the goal-mode branch for a positive rate. -/
theorem solveMonthly_eq (T R : ℚ) (Y : ℕ) (hR : 0 < R) (hY : 1 ≤ Y) :
    solveMonthlyFromTarget T R Y =
      some (pyRound (T * (R / 100 / 12) / ((1 + R / 100 / 12) ^ (Y * 12) - 1))) := by
  have hd := annuity_denom_pos hR hY
  simp only [solveMonthlyFromTarget]
  rw [if_neg (ne_of_gt hd)]

/-- Closed form of the monthly-mode branch for a positive rate. -/
theorem solveFuture_eq (M R : ℚ) (Y : ℕ) (hR : 0 < R) :
    solveFutureFromMonthly M R Y =
      some (pyRound (M * (((1 + R / 100 / 12) ^ (Y * 12) - 1) / (R / 100 / 12)))) := by
  have hr : 0 < R / 100 / 12 := by positivity
  simp only [solveFutureFromMonthly]
  rw [if_neg (ne_of_gt hr)]

/-- Feeding a rounded required-monthly amount back through the future-value
formula lands within half an annuity factor plus half a unit of the target. -/
theorem roundtrip_bound (T r d : ℚ) (hr : 0 < r) (hd : 0 < d) :
    |((pyRound ((pyRound (T * r / d) : ℚ) * (d / r)) : ℚ)) - T| ≤ d / r / 2 + 1/2 := by
  have hdr : 0 < d / r := div_pos hd hr
  have hm := abs_pyRound_sub (T * r / d)
  have hf := abs_pyRound_sub ((pyRound (T * r / d) : ℚ) * (d / r))
  have hrne : r ≠ 0 := ne_of_gt hr
  have hdne : d ≠ 0 := ne_of_gt hd
  have key : ((pyRound (T * r / d) : ℚ)) * (d / r) - T
      = ((pyRound (T * r / d) : ℚ) - T * r / d) * (d / r) := by
    field_simp
    ring
  have habs : |((pyRound (T * r / d) : ℚ)) * (d / r) - T| ≤ 1/2 * (d / r) := by
    rw [key, abs_mul, abs_of_pos hdr]
    exact mul_le_mul_of_nonneg_right hm (le_of_lt hdr)
  calc |((pyRound ((pyRound (T * r / d) : ℚ) * (d / r)) : ℚ)) - T|
      = |(((pyRound ((pyRound (T * r / d) : ℚ) * (d / r)) : ℚ))
            - (pyRound (T * r / d) : ℚ) * (d / r))
          + ((pyRound (T * r / d) : ℚ) * (d / r) - T)| := by ring_nf
    _ ≤ |((pyRound ((pyRound (T * r / d) : ℚ) * (d / r)) : ℚ))
            - (pyRound (T * r / d) : ℚ) * (d / r)|
          + |(pyRound (T * r / d) : ℚ) * (d / r) - T| := abs_add _ _
    _ ≤ 1/2 + 1/2 * (d / r) := add_le_add hf habs
    _ = d / r / 2 + 1/2 := by ring

/-! ### Claim theorems -/

/-- Claim C1, counterexample: at an annual rate of exactly 0 the code does
not fall back to `target / n` and `monthly * n`; the zero-rate examples of
the claim fail because the denominator `(1 + r) ^ n - 1` (respectively the
divisor `r`) is 0 and the division yields no value. -/
theorem zeroRate_fallback_cex :
    solveMonthlyFromTarget 120000 0 10 ≠ some 1000 ∧
    solveFutureFromMonthly 1000 0 10 ≠ some 120000 := by
  constructor <;> simp [solveMonthlyFromTarget, solveFutureFromMonthly]

/-- Claim C1, amended: at an annual rate of exactly 0 both annuity
operations hit a division by zero and return no value at all — the code has
no zero-rate fallback. -/
theorem zeroRate_returns_none (target monthly : ℚ) (years : ℕ) :
    solveMonthlyFromTarget target 0 years = none ∧
    solveFutureFromMonthly monthly 0 years = none := by
  constructor <;> simp [solveMonthlyFromTarget, solveFutureFromMonthly]

/-- Claim C2, counterexample: at annual rate 0 the goal-mode computation
returns no value, so it does not return the rounded formula value there. -/
theorem solveMonthly_zero_rate_cex :
    solveMonthlyFromTarget 120000 0 10 ≠
      some (pyRound (120000 * ((0:ℚ) / 100 / 12) /
        ((1 + (0:ℚ) / 100 / 12) ^ (10 * 12) - 1))) := by
  simp [solveMonthlyFromTarget]

/-- Claim C2, amended: for every target T, annual rate R > 0 and years
Y ≥ 1, the goal-mode computation forms r = R/100/12 and n = Y*12 and
returns T * r / ((1+r)^n - 1) rounded to a whole number. -/
theorem solveMonthlyFromTarget_formula (T R : ℚ) (Y : ℕ) (hR : 0 < R) (hY : 1 ≤ Y) :
    solveMonthlyFromTarget T R Y =
      some (pyRound (T * (R / 100 / 12) / ((1 + R / 100 / 12) ^ (Y * 12) - 1))) :=
  solveMonthly_eq T R Y hR hY

/-- Claim C2, witness: the amended formula at the documented example
target 4500000, rate 12, 10 years. -/
theorem solveMonthlyFromTarget_formula_witness :
    (0:ℚ) < 12 ∧ (1 ≤ 10) ∧
    solveMonthlyFromTarget 4500000 12 10 =
      some (pyRound (4500000 * ((12:ℚ) / 100 / 12) /
        ((1 + (12:ℚ) / 100 / 12) ^ (10 * 12) - 1))) :=
  ⟨by norm_num, by norm_num,
    solveMonthlyFromTarget_formula 4500000 12 10 (by norm_num) (by norm_num)⟩

/-- Claim C3, counterexample: at annual rate 0 the monthly-mode computation
returns no value, so it does not return the rounded formula value there. -/
theorem solveFuture_zero_rate_cex :
    solveFutureFromMonthly 1000 0 10 ≠
      some (pyRound (1000 * (((1 + (0:ℚ) / 100 / 12) ^ (10 * 12) - 1) /
        ((0:ℚ) / 100 / 12)))) := by
  simp [solveFutureFromMonthly]

/-- Claim C3, amended: for every monthly contribution M, annual rate R > 0
and years Y ≥ 1, the monthly-mode computation returns
M * ((1+r)^n - 1) / r with r = R/100/12 and n = Y*12, rounded to a whole
number. -/
theorem solveFutureFromMonthly_formula (M R : ℚ) (Y : ℕ) (hR : 0 < R) (_hY : 1 ≤ Y) :
    solveFutureFromMonthly M R Y =
      some (pyRound (M * (((1 + R / 100 / 12) ^ (Y * 12) - 1) / (R / 100 / 12)))) :=
  solveFuture_eq M R Y hR

/-- Claim C3, witness: the amended formula at monthly 5000, rate 12,
10 years. -/
theorem solveFutureFromMonthly_formula_witness :
    (0:ℚ) < 12 ∧ (1 ≤ 10) ∧
    solveFutureFromMonthly 5000 12 10 =
      some (pyRound (5000 * (((1 + (12:ℚ) / 100 / 12) ^ (10 * 12) - 1) /
        ((12:ℚ) / 100 / 12)))) :=
  ⟨by norm_num, by norm_num,
    solveFutureFromMonthly_formula 5000 12 10 (by norm_num) (by norm_num)⟩

/-- Claim C4: at a positive rate and at least one year, solving for the
monthly amount from a target and feeding it back through the future-value
computation returns a value within a rounding tolerance of the target:
half the annuity factor ((1+r)^n - 1)/r (from rounding the monthly amount)
plus half a unit (from rounding the future value). -/
theorem annuity_roundtrip (T R : ℚ) (Y : ℕ) (hR : 0 < R) (hY : 1 ≤ Y) :
    ∃ m fv : ℤ, solveMonthlyFromTarget T R Y = some m ∧
      solveFutureFromMonthly (m : ℚ) R Y = some fv ∧
      |(fv : ℚ) - T| ≤
        ((1 + R / 100 / 12) ^ (Y * 12) - 1) / (R / 100 / 12) / 2 + 1/2 := by
  have hr : 0 < R / 100 / 12 := by positivity
  have hd := annuity_denom_pos hR hY
  exact ⟨pyRound (T * (R / 100 / 12) / ((1 + R / 100 / 12) ^ (Y * 12) - 1)),
    pyRound ((pyRound (T * (R / 100 / 12) /
      ((1 + R / 100 / 12) ^ (Y * 12) - 1)) : ℚ) *
      (((1 + R / 100 / 12) ^ (Y * 12) - 1) / (R / 100 / 12))),
    solveMonthly_eq T R Y hR hY,
    solveFuture_eq _ R Y hR,
    roundtrip_bound T (R / 100 / 12) ((1 + R / 100 / 12) ^ (Y * 12) - 1) hr hd⟩

/-- Claim C4, witness: the round trip at target 120000, rate 12, 10 years. -/
theorem annuity_roundtrip_witness :
    (0:ℚ) < 12 ∧ (1 ≤ 10) ∧
    ∃ m fv : ℤ, solveMonthlyFromTarget 120000 12 10 = some m ∧
      solveFutureFromMonthly (m : ℚ) 12 10 = some fv ∧
      |(fv : ℚ) - 120000| ≤
        ((1 + (12:ℚ) / 100 / 12) ^ (10 * 12) - 1) / ((12:ℚ) / 100 / 12) / 2 + 1/2 :=
  ⟨by norm_num, by norm_num, annuity_roundtrip 120000 12 10 (by norm_num) (by norm_num)⟩

/-- Claim C5: the allocation lookup is total on the three risk labels and
returns exactly the fixed table Low ↦ (30, 60, 10), Medium ↦ (50, 40, 10),
High ↦ (70, 20, 10). -/
theorem allocate_table :
    get_portfolio_allocation "Low" = ⟨30, 60, 10⟩ ∧
    get_portfolio_allocation "Medium" = ⟨50, 40, 10⟩ ∧
    get_portfolio_allocation "High" = ⟨70, 20, 10⟩ := by
  decide

/-- Claim C6: for each of the three risk labels, the three percentages of
the returned allocation sum to exactly 100. -/
theorem allocate_sums_to_100 :
    allocTotal (get_portfolio_allocation "Low") = 100 ∧
    allocTotal (get_portfolio_allocation "Medium") = 100 ∧
    allocTotal (get_portfolio_allocation "High") = 100 := by
  decide

/-- Claim C9: the allocation lookup is total over arbitrary strings — any
input other than "Low" and "Medium" (including "High", the empty string, or
any typo) takes the else-branch and gets the High allocation, and the
percentages sum to 100 for every possible input string. -/
theorem get_portfolio_allocation_total (risk : String) :
    (risk ≠ "Low" → risk ≠ "Medium" → get_portfolio_allocation risk = ⟨70, 20, 10⟩) ∧
    allocTotal (get_portfolio_allocation risk) = 100 := by
  unfold get_portfolio_allocation allocTotal
  by_cases h1 : risk = "Low" <;> by_cases h2 : risk = "Medium" <;> simp [h1, h2]

/-- Claim C9, witness: the misspelled label "Hgih" is neither "Low" nor
"Medium", gets the High allocation, and its percentages sum to 100. -/
theorem get_portfolio_allocation_total_witness :
    ("Hgih" ≠ "Low") ∧ ("Hgih" ≠ "Medium") ∧
    get_portfolio_allocation "Hgih" = ⟨70, 20, 10⟩ ∧
    allocTotal (get_portfolio_allocation "Hgih") = 100 :=
  ⟨by decide, by decide,
    (get_portfolio_allocation_total "Hgih").1 (by decide) (by decide),
    (get_portfolio_allocation_total "Hgih").2⟩

/-- Claim C8: the average-growth computation returns nothing exactly when no
estimate is present; otherwise it returns the arithmetic mean of the present
values rounded to two decimals; in particular the mean of 10 and 20 with one
absent entry is 15, and two absent entries give nothing. -/
theorem averageGrowth_spec :
    (∀ xs : List (Option ℚ), averageGrowth xs = none ↔ xs.filterMap id = []) ∧
    (∀ xs : List (Option ℚ), xs.filterMap id ≠ [] →
      averageGrowth xs =
        some (pyRound2 ((xs.filterMap id).sum / ((xs.filterMap id).length : ℚ)))) ∧
    averageGrowth [some 10, none, some 20] = some 15 ∧
    averageGrowth [none, none] = none := by
  refine ⟨?_, ?_, ?_, ?_⟩
  · intro xs
    simp only [averageGrowth, List.isEmpty_iff]
    split_ifs with h
    · simp [h]
    · simp [h]
  · intro xs h
    simp only [averageGrowth, List.isEmpty_iff]
    rw [if_neg h]
  · norm_num [averageGrowth, pyRound2, pyRound, List.filterMap]
  · norm_num [averageGrowth, List.filterMap]

/-- Claim C8, witness: the mean example with one absent entry, applied to
the general mean equation. -/
theorem averageGrowth_spec_witness :
    (([some (10:ℚ), none, some 20] : List (Option ℚ)).filterMap id ≠ []) ∧
    averageGrowth [some 10, none, some 20] =
      some (pyRound2 ((([some (10:ℚ), none, some 20] :
          List (Option ℚ)).filterMap id).sum /
        ((([some (10:ℚ), none, some 20] :
          List (Option ℚ)).filterMap id).length : ℚ))) :=
  ⟨by decide, averageGrowth_spec.2.1 _ (by decide)⟩

/-- The fifth power of the real fifth root of 2 is 2. -/
theorem two_rpow_fifth_pow : ((2:ℝ) ^ ((1:ℝ)/5)) ^ (5:ℕ) = 2 := by
  rw [← Real.rpow_natCast ((2:ℝ) ^ ((1:ℝ)/5)) 5,
    ← Real.rpow_mul (by norm_num : (0:ℝ) ≤ 2)]
  norm_num

/-- Rational bounds on the real fifth root of 2. -/
theorem two_rpow_fifth_bounds :
    (1.14865 : ℝ) < (2:ℝ) ^ ((1:ℝ)/5) ∧ (2:ℝ) ^ ((1:ℝ)/5) < 1.1487 := by
  have hy : (0:ℝ) < (2:ℝ) ^ ((1:ℝ)/5) := Real.rpow_pos_of_pos (by norm_num) _
  have hpow := two_rpow_fifth_pow
  constructor
  · by_contra h
    push_neg at h
    have hle : ((2:ℝ) ^ ((1:ℝ)/5)) ^ (5:ℕ) ≤ (1.14865:ℝ) ^ (5:ℕ) :=
      pow_le_pow_left₀ (le_of_lt hy) h 5
    rw [hpow] at hle
    norm_num at hle
  · by_contra h
    push_neg at h
    have hle : (1.1487:ℝ) ^ (5:ℕ) ≤ ((2:ℝ) ^ ((1:ℝ)/5)) ^ (5:ℕ) :=
      pow_le_pow_left₀ (by norm_num) h 5
    rw [hpow] at hle
    norm_num at hle

/-- On a non-empty series with positive start price and a positive year
count, `fetch_cagr` reaches the rounded growth formula. -/
theorem fetch_cagr_pos_eq (p : ℝ) (ps : List ℝ) (years : ℕ) (hp : 0 < p)
    (hy : years ≠ 0) :
    fetch_cagr (some (p :: ps)) years =
      FetchResult.val (pyRound2R ((((p :: ps).getLast (List.cons_ne_nil p ps) / p) ^
        ((1 : ℝ) / years) - 1) * 100)) := by
  simp only [fetch_cagr]
  rw [if_neg (ne_of_gt hp), if_neg hy]

/-- Claim C7: the CAGR fetcher reports no estimate exactly when the price
series is missing or empty; on a non-empty series with positive start price
and a positive year count it returns
((last / first) ^ (1/years) - 1) * 100 rounded to two decimals; on the
two-point series 100, 200 over 5 years that value is exactly 14.87. -/
theorem fetch_cagr_spec :
    (∀ (a : Option (List ℝ)) (years : ℕ),
        (fetch_cagr a years = FetchResult.absent ↔ (a = none ∨ a = some []))) ∧
    (∀ (p : ℝ) (ps : List ℝ) (years : ℕ), 0 < p → 0 < years →
        fetch_cagr (some (p :: ps)) years =
          FetchResult.val (pyRound2R ((((p :: ps).getLast (List.cons_ne_nil p ps) / p) ^
            ((1 : ℝ) / years) - 1) * 100))) ∧
    fetch_cagr (some [100, 200]) 5 = FetchResult.val 14.87 := by
  refine ⟨?_, fun p ps years hp hy => fetch_cagr_pos_eq p ps years hp (by omega), ?_⟩
  · intro a years
    match a with
    | none => simp [fetch_cagr]
    | some [] => simp [fetch_cagr]
    | some (p :: ps) =>
      simp only [fetch_cagr]
      split_ifs <;> simp
  · rw [fetch_cagr_pos_eq 100 [200] 5 (by norm_num) (by norm_num)]
    have hlast : ([100, 200] : List ℝ).getLast (List.cons_ne_nil 100 [200]) = 200 := rfl
    rw [hlast]
    have hdiv : (200:ℝ) / 100 = 2 := by norm_num
    rw [hdiv]
    have hb := two_rpow_fifth_bounds
    have hz1 : (1486.5:ℝ) < ((2:ℝ) ^ ((1:ℝ)/5) - 1) * 100 * 100 := by nlinarith [hb.1]
    have hz2 : ((2:ℝ) ^ ((1:ℝ)/5) - 1) * 100 * 100 < 1487 := by nlinarith [hb.2]
    have hfloor : ⌊((2:ℝ) ^ ((1:ℝ)/5) - 1) * 100 * 100⌋ = 1486 := by
      rw [Int.floor_eq_iff]
      constructor <;> push_cast <;> linarith
    show FetchResult.val (pyRound2R (((2:ℝ) ^ ((1:ℝ)/5) - 1) * 100)) = FetchResult.val 14.87
    unfold pyRound2R pyRoundR
    rw [hfloor]
    rw [if_neg (by push_cast; linarith), if_pos (by push_cast; linarith)]
    norm_num

/-- Claim C7, witness: the growth-formula equation at the two-point series
100, 200 over 5 years. -/
theorem fetch_cagr_spec_witness :
    (0:ℝ) < 100 ∧ (0 < 5) ∧
    fetch_cagr (some [(100:ℝ), 200]) 5 =
      FetchResult.val (pyRound2R (((([(100:ℝ), 200]).getLast
        (List.cons_ne_nil 100 [200]) / 100) ^ ((1 : ℝ) / (5:ℕ)) - 1) * 100)) :=
  ⟨by norm_num, by norm_num, fetch_cagr_spec.2.1 100 [200] 5 (by norm_num) (by norm_num)⟩

/-- Claim C10: on a series with exactly one observation and a positive year
count, the CAGR fetcher does not report absence: first and last price
coincide, the growth ratio is 1, and the reported value is 0. -/
theorem fetch_cagr_single_obs (p : ℝ) (years : ℕ) (hp : 0 < p) (hy : 0 < years) :
    fetch_cagr (some [p]) years = FetchResult.val 0 := by
  rw [fetch_cagr_pos_eq p [] years hp (by omega)]
  have hlast : ([p] : List ℝ).getLast (List.cons_ne_nil p []) = p := rfl
  rw [hlast, div_self (ne_of_gt hp), Real.one_rpow]
  norm_num [pyRound2R, pyRoundR]

/-- Claim C10, witness: a one-observation series at price 100 over 5 years
reports the value 0 rather than absence. -/
theorem fetch_cagr_single_obs_witness :
    (0:ℝ) < 100 ∧ (0 < 5) ∧ fetch_cagr (some [(100:ℝ)]) 5 = FetchResult.val 0 :=
  ⟨by norm_num, by norm_num, fetch_cagr_single_obs 100 5 (by norm_num) (by norm_num)⟩
